import Mathlib

/-!
Shallow embedding of `tracktable/Core/PropertyValue.cpp`.

The C++ value type `tracktable::PropertyValueT` is a
`boost::variant<NullValue, double, int64_t, string_type, Timestamp>`.
We model `double` as an exact rational (the claims under study concern
the structure of the arithmetic, not floating-point rounding),
`int64_t` as `Int`, and `Timestamp` as an integer count of microseconds
since an arbitrary epoch (boost posix_time at microsecond resolution;
`Duration.total_microseconds` is then the raw difference).

`boost::get<T>` on a variant holding a different alternative throws
`boost::bad_get`; fallible access is modelled with `Except`, where
`PropertyError.typeMismatch` stands for that exception.
-/

deriving instance DecidableEq for Except

namespace Tracktable

/-- `tracktable::PropertyUnderlyingType` enumeration. -/
inductive PropertyUnderlyingType where
  | TYPE_UNKNOWN
  | TYPE_REAL
  | TYPE_STRING
  | TYPE_TIMESTAMP
  | TYPE_INTEGER
  | TYPE_NULL
deriving DecidableEq, Repr

/-- `tracktable::NullValue`: a typed null remembering the tag it stands in for. -/
structure NullValue where
  ExpectedType : PropertyUnderlyingType
deriving DecidableEq, Repr

/-- Timestamps as whole microseconds since an epoch. -/
abbrev Timestamp := Int

/-- The closed variant `tracktable::PropertyValueT`, with the feature-gated
`int64_t` alternative enabled. -/
inductive PropertyValueT where
  | NullV (v : NullValue)
  | RealV (v : ℚ)
  | IntegerV (v : Int)
  | StringV (v : String)
  | TimestampV (v : Timestamp)
deriving DecidableEq, Repr

/-- The fault raised when `boost::get<T>` is applied to a variant holding a
different alternative (`boost::bad_get`). -/
inductive PropertyError where
  | typeMismatch
deriving DecidableEq, Repr

/-- `static_cast<int64_t>` applied to a (real-valued) intermediate result:
truncation toward zero. -/
def truncToZero (q : ℚ) : Int :=
  if 0 ≤ q then ⌊q⌋ else ⌈q⌉

/-- `boost::get<double>`. -/
def getReal : PropertyValueT → Except PropertyError ℚ
  | .RealV v => .ok v
  | _ => .error .typeMismatch

/-- `boost::get<int64_t>`. -/
def getInteger : PropertyValueT → Except PropertyError Int
  | .IntegerV v => .ok v
  | _ => .error .typeMismatch

/-- `boost::get<tracktable::string_type>`. -/
def getString : PropertyValueT → Except PropertyError String
  | .StringV v => .ok v
  | _ => .error .typeMismatch

/-- `boost::get<tracktable::Timestamp>`. -/
def getTimestamp : PropertyValueT → Except PropertyError Timestamp
  | .TimestampV v => .ok v
  | _ => .error .typeMismatch

/-- The `RetrieveUnderlyingType` visitor run by
`tracktable::property_underlying_type`: each live alternative maps to its
tag; a `NullValue` maps to `TYPE_NULL` whatever its `ExpectedType`. -/
def property_underlying_type : PropertyValueT → PropertyUnderlyingType
  | .RealV _ => .TYPE_REAL
  | .StringV _ => .TYPE_STRING
  | .TimestampV _ => .TYPE_TIMESTAMP
  | .IntegerV _ => .TYPE_INTEGER
  | .NullV _ => .TYPE_NULL

/-- `tracktable::is_property_null`. -/
def is_property_null (value : PropertyValueT) : Bool :=
  decide (property_underlying_type value = PropertyUnderlyingType.TYPE_NULL)

/-- The `InterpolateProperties` visitor: dispatch on the alternative held by
`first` (here the last argument), with `interpolant` and `SecondValue` as the
visitor state.  Mirrors each `operator()` overload in order:
`NullValue` snaps at 0.5 with no access to `SecondValue`'s payload;
`double` blends linearly after a raw `boost::get<double>` (no null check in
the source); `int64_t` null-checks then applies the asymmetric formula
`(1-t)*value1 + (t + value2)` truncated to `int64_t`; `string_type`
null-checks then snaps at 0.5; `Timestamp` null-checks then adds the
`t`-scaled, microsecond-truncated delta to `value1`. -/
def interpolateVisit (interpolant : ℚ) (SecondValue : PropertyValueT) :
    PropertyValueT → Except PropertyError PropertyValueT
  | .NullV value1 =>
      if interpolant < 1/2 then
        .ok (.NullV value1)
      else
        .ok SecondValue
  | .RealV value1 =>
      match getReal SecondValue with
      | .error e => .error e
      | .ok value2 =>
          .ok (.RealV ((1 - interpolant) * value1 + interpolant * value2))
  | .IntegerV value1 =>
      if is_property_null SecondValue then
        .ok (if interpolant < 1/2 then .IntegerV value1 else SecondValue)
      else
        match getInteger SecondValue with
        | .error e => .error e
        | .ok value2 =>
            .ok (.IntegerV (truncToZero ((1 - interpolant) * (value1 : ℚ) +
              (interpolant + (value2 : ℚ)))))
  | .StringV value1 =>
      if is_property_null SecondValue then
        .ok (if interpolant < 1/2 then .StringV value1 else SecondValue)
      else
        match getString SecondValue with
        | .error e => .error e
        | .ok value2 =>
            if interpolant < 1/2 then
              .ok (.StringV value1)
            else
              .ok (.StringV value2)
  | .TimestampV value1 =>
      if is_property_null SecondValue then
        .ok (if interpolant < 1/2 then .TimestampV value1 else SecondValue)
      else
        match getTimestamp SecondValue with
        | .error e => .error e
        | .ok value2 =>
            .ok (.TimestampV (value1 +
              truncToZero (((value2 - value1 : Int) : ℚ) * interpolant)))

/-- `tracktable::algorithms::interpolate_property`: boundary shortcut
(`t <= 0` returns `first`, `t >= 1` returns `second`), then the
`InterpolateProperties` visitor applied to `first`. -/
def interpolate_property (first second : PropertyValueT) (t : ℚ) :
    Except PropertyError PropertyValueT :=
  if t ≤ 0 then .ok first
  else if 1 ≤ t then .ok second
  else interpolateVisit t second first

/-- `tracktable::algorithms::extrapolate_property`: the same visitor with no
boundary shortcut. -/
def extrapolate_property (first second : PropertyValueT) (t : ℚ) :
    Except PropertyError PropertyValueT :=
  interpolateVisit t second first

/-- Away from the boundary, `interpolate_property` is the visitor. -/
theorem interpolate_eq_visit (first second : PropertyValueT) (t : ℚ)
    (h0 : 0 < t) (h1 : t < 1) :
    interpolate_property first second t = interpolateVisit t second first := by
  unfold interpolate_property
  rw [if_neg (not_le.mpr h0), if_neg (not_le.mpr h1)]

theorem visit_real_real (t v1 v2 : ℚ) :
    interpolateVisit t (.RealV v2) (.RealV v1)
      = .ok (.RealV ((1 - t) * v1 + t * v2)) := rfl

theorem visit_real_null (t v1 : ℚ) (n : NullValue) :
    interpolateVisit t (.NullV n) (.RealV v1)
      = .error .typeMismatch := rfl

theorem visit_ts_ts (t : ℚ) (v1 v2 : Timestamp) :
    interpolateVisit t (.TimestampV v2) (.TimestampV v1)
      = .ok (.TimestampV (v1 + truncToZero (((v2 - v1 : Int) : ℚ) * t))) := rfl

theorem visit_null (t : ℚ) (n : NullValue) (second : PropertyValueT) :
    interpolateVisit t second (.NullV n)
      = if t < 1/2 then .ok (.NullV n) else .ok second := rfl

theorem visit_str_str (t : ℚ) (s1 s2 : String) :
    interpolateVisit t (.StringV s2) (.StringV s1)
      = if t < 1/2 then .ok (.StringV s1) else .ok (.StringV s2) := rfl

theorem visit_str_null (t : ℚ) (s1 : String) (n : NullValue) :
    interpolateVisit t (.NullV n) (.StringV s1)
      = .ok (if t < 1/2 then .StringV s1 else .NullV n) := rfl

theorem visit_ts_null (t : ℚ) (v1 : Timestamp) (n : NullValue) :
    interpolateVisit t (.NullV n) (.TimestampV v1)
      = .ok (if t < 1/2 then .TimestampV v1 else .NullV n) := rfl

theorem visit_int_int (t : ℚ) (v1 v2 : Int) :
    interpolateVisit t (.IntegerV v2) (.IntegerV v1)
      = .ok (.IntegerV (truncToZero ((1 - t) * (v1 : ℚ) +
          (t + (v2 : ℚ))))) := rfl

theorem visit_int_null (t : ℚ) (v1 : Int) (n : NullValue) :
    interpolateVisit t (.NullV n) (.IntegerV v1)
      = .ok (if t < 1/2 then .IntegerV v1 else .NullV n) := rfl

theorem interpolate_at_one (first second : PropertyValueT) :
    interpolate_property first second 1 = .ok second := by
  unfold interpolate_property
  rw [if_neg (by norm_num), if_pos (by norm_num)]

/-- Claim C1: the spec says a Real `first` with a TypedNull `second` snaps
(`first` when `t < 0.5`, else `second`).  The code's `operator()(double)`
performs no null check: it applies `boost::get<double>` to the TypedNull
`second` and throws `boost::bad_get` on both sides of 0.5.  Every sibling
overload (int64, string, Timestamp) does perform the null check, so the
omission is a slip in the code; this theorem evaluates the code at the
failing inputs. -/
theorem C1_real_null_second_throws :
    interpolate_property (.RealV 1) (.NullV ⟨.TYPE_REAL⟩) (1/4)
      = .error .typeMismatch ∧
    interpolate_property (.RealV 1) (.NullV ⟨.TYPE_REAL⟩) (3/4)
      = .error .typeMismatch := by
  constructor <;>
    rw [interpolate_eq_visit _ _ _ (by norm_num) (by norm_num), visit_real_null]

/-- Claim C4: `property_underlying_type` maps every live alternative to its
tag (TypedNull to Null regardless of `ExpectedType`), and `is_property_null`
holds exactly when that tag is Null — hence on every TypedNull value. -/
theorem C4_type_tags :
    (∀ v : ℚ, property_underlying_type (.RealV v)
        = PropertyUnderlyingType.TYPE_REAL) ∧
    (∀ s : String, property_underlying_type (.StringV s)
        = PropertyUnderlyingType.TYPE_STRING) ∧
    (∀ ts : Timestamp, property_underlying_type (.TimestampV ts)
        = PropertyUnderlyingType.TYPE_TIMESTAMP) ∧
    (∀ k : Int, property_underlying_type (.IntegerV k)
        = PropertyUnderlyingType.TYPE_INTEGER) ∧
    (∀ n : NullValue, property_underlying_type (.NullV n)
        = PropertyUnderlyingType.TYPE_NULL) ∧
    (∀ v : PropertyValueT,
      is_property_null v = true ↔
        property_underlying_type v = PropertyUnderlyingType.TYPE_NULL) ∧
    (∀ n : NullValue, is_property_null (.NullV n) = true) := by
  refine ⟨fun _ => rfl, fun _ => rfl, fun _ => rfl, fun _ => rfl, fun _ => rfl,
    ?_, fun _ => rfl⟩
  intro v
  simp [is_property_null]

/-- Claim C5: for any two values of any tags, `t <= 0` returns `first`
unchanged and `t >= 1` returns `second` unchanged, before any per-tag
dispatch or type check. -/
theorem C5_boundary_shortcut (first second : PropertyValueT) (t : ℚ) :
    (t ≤ 0 → interpolate_property first second t = .ok first) ∧
    (1 ≤ t → interpolate_property first second t = .ok second) := by
  constructor
  · intro h
    unfold interpolate_property
    rw [if_pos h]
  · intro h
    unfold interpolate_property
    rcases le_or_lt t 0 with h0 | h0
    · linarith
    · rw [if_neg (not_le.mpr h0), if_pos h]

theorem C5_boundary_shortcut_witness :
    interpolate_property (.RealV 1) (.StringV "x") 0 = .ok (.RealV 1) ∧
    interpolate_property (.RealV 1) (.StringV "x") 2 = .ok (.StringV "x") :=
  ⟨(C5_boundary_shortcut (.RealV 1) (.StringV "x") 0).1 le_rfl,
   (C5_boundary_shortcut (.RealV 1) (.StringV "x") 2).2 (by norm_num)⟩

/-- Claim C6: with a TypedNull `first` and any `second`, interpolation at
`0 < t < 1` returns `first` when `t < 0.5` and `second` verbatim otherwise;
in particular Null/Real(5) at 0.9 gives Real(5) and at 0.1 gives the Null. -/
theorem C6_null_first (n : NullValue) (second : PropertyValueT) (t : ℚ)
    (h0 : 0 < t) (h1 : t < 1) :
    (t < 1/2 → interpolate_property (.NullV n) second t = .ok (.NullV n)) ∧
    (1/2 ≤ t → interpolate_property (.NullV n) second t = .ok second) ∧
    interpolate_property (.NullV ⟨.TYPE_REAL⟩) (.RealV 5) (9/10)
      = .ok (.RealV 5) ∧
    interpolate_property (.NullV ⟨.TYPE_REAL⟩) (.RealV 5) (1/10)
      = .ok (.NullV ⟨.TYPE_REAL⟩) := by
  refine ⟨?_, ?_, ?_, ?_⟩
  · intro h
    rw [interpolate_eq_visit _ _ _ h0 h1, visit_null, if_pos h]
  · intro h
    rw [interpolate_eq_visit _ _ _ h0 h1, visit_null, if_neg (not_lt.mpr h)]
  · rw [interpolate_eq_visit _ _ _ (by norm_num) (by norm_num), visit_null,
      if_neg (by norm_num)]
  · rw [interpolate_eq_visit _ _ _ (by norm_num) (by norm_num), visit_null,
      if_pos (by norm_num)]

theorem C6_null_first_witness :
    interpolate_property (.NullV ⟨.TYPE_REAL⟩) (.RealV 5) (1/4)
      = .ok (.NullV ⟨.TYPE_REAL⟩) ∧
    interpolate_property (.NullV ⟨.TYPE_REAL⟩) (.RealV 5) (3/4)
      = .ok (.RealV 5) :=
  ⟨(C6_null_first ⟨.TYPE_REAL⟩ (.RealV 5) (1/4) (by norm_num)
      (by norm_num)).1 (by norm_num),
   ((C6_null_first ⟨.TYPE_REAL⟩ (.RealV 5) (3/4) (by norm_num)
      (by norm_num)).2).1 (by norm_num)⟩

/-- Claim C8: with a String `first` and String `second`, interpolation at
`0 < t < 1` selects `first` below 0.5 and `second` at or above 0.5, never
blending; a TypedNull `second` snaps by the same rule; at 0.49 the result is
`s1` and at 0.51 it is `s2`. -/
theorem C8_string_snap (s1 s2 : String) (t : ℚ) (h0 : 0 < t) (h1 : t < 1) :
    interpolate_property (.StringV s1) (.StringV s2) t
      = .ok (if t < 1/2 then .StringV s1 else .StringV s2) ∧
    (∀ n : NullValue,
      interpolate_property (.StringV s1) (.NullV n) t
        = .ok (if t < 1/2 then .StringV s1 else .NullV n)) ∧
    interpolate_property (.StringV s1) (.StringV s2) (49/100)
      = .ok (.StringV s1) ∧
    interpolate_property (.StringV s1) (.StringV s2) (51/100)
      = .ok (.StringV s2) := by
  refine ⟨?_, ?_, ?_, ?_⟩
  · rw [interpolate_eq_visit _ _ _ h0 h1, visit_str_str]
    split <;> rfl
  · intro nv
    rw [interpolate_eq_visit _ _ _ h0 h1, visit_str_null]
  · rw [interpolate_eq_visit _ _ _ (by norm_num) (by norm_num), visit_str_str,
      if_pos (by norm_num)]
  · rw [interpolate_eq_visit _ _ _ (by norm_num) (by norm_num), visit_str_str,
      if_neg (by norm_num)]

theorem truncToZero_of_nonneg (q : ℚ) (z : Int) (hz : 0 ≤ z)
    (hl : (z : ℚ) ≤ q) (hu : q < z + 1) : truncToZero q = z := by
  have hq : (0:ℚ) ≤ q := le_trans (by exact_mod_cast hz) hl
  unfold truncToZero
  rw [if_pos hq]
  exact Int.floor_eq_iff.mpr ⟨hl, hu⟩

/-- Claim C2 counterexample: for timestamps one microsecond apart, the
midpoint interpolation truncates the scaled delta to zero and returns the
first endpoint itself, which is not strictly between the two. -/
theorem C2_counterexample_one_microsecond :
    interpolate_property (.TimestampV 0) (.TimestampV 1) (1/2)
      = .ok (.TimestampV 0) ∧ ¬ ((0:Int) < (0:Int)) := by
  refine ⟨?_, lt_irrefl 0⟩
  rw [interpolate_eq_visit _ _ _ (by norm_num) (by norm_num), visit_ts_ts]
  have harg : (((1:Int) - 0 : Int) : ℚ) * (1/2) = 1/2 := by push_cast; norm_num
  rw [harg, truncToZero_of_nonneg (1/2) 0 le_rfl (by norm_num) (by norm_num)]
  norm_num

/-- Claim C2 as amended: for timestamps `t1 < t2`, the midpoint
interpolation lands in `[t1, t2)` — strictly between the endpoints whenever
they are at least 2 microseconds apart — and interpolation at `t = 1`
returns `t2` exactly (boundary shortcut). -/
theorem C2_amended_timestamp_midpoint (t1 t2 : Timestamp) (h : t1 < t2) :
    (∃ r : Timestamp,
      interpolate_property (.TimestampV t1) (.TimestampV t2) (1/2)
        = .ok (.TimestampV r) ∧
      t1 ≤ r ∧ r < t2 ∧ (t1 + 2 ≤ t2 → t1 < r)) ∧
    interpolate_property (.TimestampV t1) (.TimestampV t2) 1
      = .ok (.TimestampV t2) := by
  have hd : (0:ℚ) < ((t2 - t1 : Int) : ℚ) := by
    exact_mod_cast Int.sub_pos.mpr h
  have hq : (0:ℚ) ≤ ((t2 - t1 : Int) : ℚ) * (1/2) := by linarith
  constructor
  · refine ⟨t1 + truncToZero (((t2 - t1 : Int) : ℚ) * (1/2)), ?_, ?_, ?_, ?_⟩
    · rw [interpolate_eq_visit _ _ _ (by norm_num) (by norm_num), visit_ts_ts]
    · have hfl : (0:Int) ≤ ⌊((t2 - t1 : Int) : ℚ) * (1/2)⌋ :=
        Int.le_floor.mpr (by exact_mod_cast hq)
      unfold truncToZero
      rw [if_pos hq]
      linarith
    · have hfl : ⌊((t2 - t1 : Int) : ℚ) * (1/2)⌋ < t2 - t1 :=
        Int.floor_lt.mpr (by linarith)
      unfold truncToZero
      rw [if_pos hq]
      linarith
    · intro h2
      have h2q : (2:ℚ) ≤ ((t2 - t1 : Int) : ℚ) := by
        exact_mod_cast (by linarith : (2:Int) ≤ t2 - t1)
      have hfl : (1:Int) ≤ ⌊((t2 - t1 : Int) : ℚ) * (1/2)⌋ := by
        apply Int.le_floor.mpr
        push_cast at h2q ⊢
        linarith
      unfold truncToZero
      rw [if_pos hq]
      linarith
  · exact interpolate_at_one _ _

theorem C2_amended_timestamp_midpoint_witness :
    (∃ r : Timestamp,
      interpolate_property (.TimestampV 0) (.TimestampV 2) (1/2)
        = .ok (.TimestampV r) ∧
      (0:Int) ≤ r ∧ r < 2 ∧ ((0:Int) + 2 ≤ 2 → (0:Int) < r)) ∧
    interpolate_property (.TimestampV 0) (.TimestampV 2) 1
      = .ok (.TimestampV 2) :=
  C2_amended_timestamp_midpoint 0 2 (by norm_num)

/-- Claim C3: the enabled Integer branch, with a non-null Integer `second`,
returns the int64 truncation of the asymmetric formula
`(1-t)*value1 + (t + value2)`; at `(0, 10, 0.5)` this yields 10, whereas the
linear blend `(1-t)*value1 + t*value2` would truncate to 5. -/
theorem C3_integer_asymmetric_blend (v1 v2 : Int) (t : ℚ)
    (h0 : 0 < t) (h1 : t < 1) :
    interpolate_property (.IntegerV v1) (.IntegerV v2) t
      = .ok (.IntegerV (truncToZero ((1 - t) * (v1 : ℚ) +
          (t + (v2 : ℚ))))) ∧
    interpolate_property (.IntegerV 0) (.IntegerV 10) (1/2)
      = .ok (.IntegerV 10) ∧
    truncToZero ((1 - 1/2) * ((0:Int) : ℚ) + (1/2) * ((10:Int) : ℚ)) = 5 := by
  refine ⟨?_, ?_, ?_⟩
  · rw [interpolate_eq_visit _ _ _ h0 h1, visit_int_int]
  · rw [interpolate_eq_visit _ _ _ (by norm_num) (by norm_num), visit_int_int]
    have harg : (1 - 1/2 : ℚ) * ((0:Int) : ℚ) + ((1/2 : ℚ) + ((10:Int) : ℚ))
        = 21/2 := by push_cast; norm_num
    rw [harg, truncToZero_of_nonneg (21/2) 10 (by norm_num) (by norm_num)
      (by norm_num)]
  · have harg : (1 - 1/2 : ℚ) * ((0:Int) : ℚ) + (1/2 : ℚ) * ((10:Int) : ℚ)
        = 5 := by push_cast; norm_num
    rw [harg, truncToZero_of_nonneg 5 5 (by norm_num) (by norm_num)
      (by norm_num)]

theorem C3_integer_asymmetric_blend_witness :
    interpolate_property (.IntegerV 0) (.IntegerV 10) (1/2)
      = .ok (.IntegerV (truncToZero ((1 - 1/2) * ((0:Int) : ℚ) +
          ((1/2 : ℚ) + ((10:Int) : ℚ))))) :=
  (C3_integer_asymmetric_blend 0 10 (1/2) (by norm_num) (by norm_num)).1

/-- Claim C7: the Timestamp branch with a non-null Timestamp `second` adds
to `first` the `t`-scaled, microsecond-truncated delta `second - first`; the
midpoint of a 60-second span is 30 seconds; a TypedNull `second` snaps at
0.5. -/
theorem C7_timestamp_linear (t1 t2 : Timestamp) (t : ℚ)
    (h0 : 0 < t) (h1 : t < 1) :
    interpolate_property (.TimestampV t1) (.TimestampV t2) t
      = .ok (.TimestampV (t1 + truncToZero (((t2 - t1 : Int) : ℚ) * t))) ∧
    (∀ n : NullValue,
      interpolate_property (.TimestampV t1) (.NullV n) t
        = .ok (if t < 1/2 then .TimestampV t1 else .NullV n)) ∧
    interpolate_property (.TimestampV 0) (.TimestampV 60000000) (1/2)
      = .ok (.TimestampV 30000000) := by
  refine ⟨?_, ?_, ?_⟩
  · rw [interpolate_eq_visit _ _ _ h0 h1, visit_ts_ts]
  · intro nv
    rw [interpolate_eq_visit _ _ _ h0 h1, visit_ts_null]
  · rw [interpolate_eq_visit _ _ _ (by norm_num) (by norm_num), visit_ts_ts]
    have harg : (((60000000:Int) - 0 : Int) : ℚ) * (1/2) = 30000000 := by
      push_cast
      norm_num
    rw [harg, truncToZero_of_nonneg 30000000 30000000 (by norm_num)
      (by norm_num) (by norm_num)]
    norm_num

theorem C7_timestamp_linear_witness :
    interpolate_property (.TimestampV 0) (.TimestampV 60000000) (1/2)
      = .ok (.TimestampV 30000000) :=
  ((C7_timestamp_linear 0 60000000 (1/2) (by norm_num) (by norm_num)).2).2

/-- Claim C9: `extrapolate_property` is the same per-tag visitor with no
boundary shortcut, so it agrees with `interpolate_property` on `0 < t < 1`,
and at `t = 1.5` the Real rule projects `(0, 10)` to 15. -/
theorem C9_extrapolate_refines (first second : PropertyValueT) (t : ℚ)
    (h0 : 0 < t) (h1 : t < 1) :
    extrapolate_property first second t = interpolate_property first second t ∧
    extrapolate_property (.RealV 0) (.RealV 10) (3/2) = .ok (.RealV 15) := by
  constructor
  · rw [interpolate_eq_visit _ _ _ h0 h1]
    rfl
  · show interpolateVisit (3/2) (.RealV 10) (.RealV 0) = _
    rw [visit_real_real]
    norm_num

theorem C9_extrapolate_refines_witness :
    extrapolate_property (.RealV 0) (.RealV 10) (1/2)
      = interpolate_property (.RealV 0) (.RealV 10) (1/2) ∧
    extrapolate_property (.RealV 0) (.RealV 10) (3/2) = .ok (.RealV 15) :=
  C9_extrapolate_refines (.RealV 0) (.RealV 10) (1/2) (by norm_num)
    (by norm_num)

/-- Claim C10: away from the boundary, any pair of distinct non-null tags
makes every per-tag rule reach `boost::get` under the wrong assumed type and
raise the TypeMismatch fault, producing no result value. -/
theorem C10_mismatched_tags (first second : PropertyValueT) (t : ℚ)
    (h0 : 0 < t) (h1 : t < 1)
    (hf : property_underlying_type first ≠ PropertyUnderlyingType.TYPE_NULL)
    (hs : property_underlying_type second ≠ PropertyUnderlyingType.TYPE_NULL)
    (hne : property_underlying_type first ≠ property_underlying_type second) :
    interpolate_property first second t = .error .typeMismatch := by
  rw [interpolate_eq_visit _ _ _ h0 h1]
  cases first <;> cases second <;>
    simp_all [interpolateVisit, property_underlying_type, is_property_null,
      getReal, getInteger, getString, getTimestamp]

theorem C10_mismatched_tags_witness :
    interpolate_property (.RealV 1) (.StringV "a") (1/2)
      = .error .typeMismatch :=
  C10_mismatched_tags (.RealV 1) (.StringV "a") (1/2) (by norm_num)
    (by norm_num) (by decide) (by decide) (by decide)

theorem C8_string_snap_witness :
    interpolate_property (.StringV "A") (.StringV "B") (3/10)
      = .ok (if (3/10 : ℚ) < 1/2 then .StringV "A" else .StringV "B") :=
  (C8_string_snap "A" "B" (3/10) (by norm_num) (by norm_num)).1

end Tracktable
